import Mathlib

/-!
Shallow embedding of `src/rabbit/predictor/core.py` (RABBIT).

The module defines a `ContributorResult` dataclass and two functions:

* `compute_activity_sequences(events)`: under a scoped stdout redirection
  (`contextlib.redirect_stdout` into a fresh `StringIO`), it loads the two
  ghmap mapping tables from packaged resources, runs the two-stage external
  mapper (events → actions → activities) while logging debug counts, then —
  after the redirection is exited — scans the captured stdout text line by
  line, keeps only lines containing `"Warning: Unused actions"` (truncated to
  start at the marker), and re-emits them as one debug log message.

* `predict_user_type(username, events, predictor)`: runs the normalizer; if
  the activity sequence is empty it short-circuits to
  `ContributorResult(username, "Unknown", "-")`; otherwise it runs the
  feature extractor, calls `predictor.predict`, and assembles the result.

External collaborators (ghmap's `load_json_file`, `ActionMapper.map`,
`ActivityMapper.map`, the repository's `ActivityFeatureExtractor` — whose
source is not part of the pipeline core — and the `Predictor`) are modelled
as function parameters bundled in `Env`.  Observable effects (resource
loads, collaborator calls, debug log messages, text reaching the real
stdout, the current stdout channel) are threaded through a `World` state.
Exceptions are modelled with `Except`.
-/

namespace Rabbit

/-- Events are raw GitHub event dicts; the pipeline core treats them as
opaque.  Only the actor identifier matters for the claims (it defines what
"belonging to one contributor" means); the rest is an opaque payload. -/
structure Event where
  actor : String
  payload : String
deriving DecidableEq

/-- Opaque intermediate record produced by ghmap's `ActionMapper.map`. -/
abbrev Action := String

/-- Opaque normalized record produced by ghmap's `ActivityMapper.map`. -/
abbrev Activity := String

/-- Opaque parsed content of a packaged JSON mapping table. -/
abbrev Json := String

/-- Python exceptions relevant to the pipeline: `ValueError` (documented for
multi-contributor event sets), and configuration / library failures raised
by ghmap resource loading or mapping. -/
inductive Err where
  | valueError (msg : String)
  | configError (msg : String)
  | libraryError (msg : String)
deriving DecidableEq

/-- Confidence of a prediction: a numeric score, or the `"-"` marker used
when no prediction was made (Python type `float | str`).  Scores are kept
abstract as integers (the core never computes on them). -/
inductive Confidence where
  | dash
  | score (v : Int)
deriving DecidableEq

/-- A pandas DataFrame of features as returned by
`ActivityFeatureExtractor.compute_features`: a list of rows, each row a list
of (feature name, value) pairs. -/
abbrev DataFrame := List (List (String × Int))

/-- Embedding of pandas `DataFrame.empty`: a frame is empty when it has no
rows or no columns, i.e. when every row has no entries. -/
def dfEmpty (df : DataFrame) : Bool :=
  df.all (fun r => r.isEmpty)

/-- Embedding of `features_df.iloc[0].to_dict()`: the first row as a plain
key → value mapping (only used on non-empty frames). -/
def dfRow0 (df : DataFrame) : List (String × Int) :=
  df.headD []

/-- Embedding of the `ContributorResult` dataclass.  `features` is the plain
dict of computed behavioral features (empty if prediction was not made).

In Python the constructor defaults are `user_type="Unknown"`,
`confidence="-"`, `features={}`. -/
structure ContributorResult where
  contributor : String
  user_type : String
  confidence : Confidence
  features : List (String × Int)
deriving DecidableEq

/-- Embedding of `ContributorResult.__str__`: the CSV form
`"{contributor},{user_type},{confidence}"` without features. -/
def ContributorResult.csv (r : ContributorResult) : String :=
  r.contributor ++ "," ++ r.user_type ++ "," ++
    (match r.confidence with
     | .dash => "-"
     | .score v => toString v)

/-- Observable external calls made by the pipeline, in order: loading a
packaged resource by name, the two mapper stages, constructing the feature
extractor and computing features, and invoking `predictor.predict`. -/
inductive CallEvt where
  | loadRes (name : String)
  | actionMapCall
  | activityMapCall
  | extractFeatures
  | predictCall
deriving DecidableEq

/-- Where `sys.stdout` currently points: the real process stdout, or the
`StringIO` capture buffer installed by `contextlib.redirect_stdout`. -/
inductive Chan where
  | real
  | capture
deriving DecidableEq

/-- The observable state threaded through a pipeline invocation:
the current stdout target, the text that has reached the real process
stdout, the debug log, and the trace of external calls. -/
structure World where
  stdout : Chan
  realOut : String
  log : List String
  calls : List CallEvt
deriving DecidableEq

/-- Append a debug-level log message (embedding of `logger.debug`; the
logging channel is not affected by the stdout redirection). -/
def logDebug (w : World) (msg : String) : World :=
  { w with log := w.log ++ [msg] }

/-- Record an external call in the trace. -/
def recordCall (w : World) (c : CallEvt) : World :=
  { w with calls := w.calls ++ [c] }

/-- Write text to whatever `sys.stdout` currently points at: the real
stdout, or the local capture buffer `buf`. -/
def emit (w : World) (buf : String) (s : String) : World × String :=
  match w.stdout with
  | .real => ({ w with realOut := w.realOut ++ s }, buf)
  | .capture => (w, buf ++ s)

/-- The external collaborators of the pipeline core, as contracts:
ghmap's `load_json_file` on a packaged resource name, the two mapper stages
(each returning the text it prints to stdout alongside its result or
exception), and the repository's `ActivityFeatureExtractor` (construction
plus `compute_features`, which per the documentation may raise `ValueError`
for multi-contributor data). -/
structure Env where
  loadJson : String → Except Err Json
  actionMap : Json → List Event → String × Except Err (List Action)
  activityMap : Json → List Action → String × Except Err (List Activity)
  computeFeatures : String → List Activity → Except Err DataFrame

/-- A loaded prediction model: `predict(features) -> (label, confidence)`. -/
abbrev Predictor := DataFrame → String × Confidence

/-- The warning marker scanned for in the captured ghmap output. -/
def warningMarker : String := "Warning: Unused actions"

/-- First index at which `sub` occurs in `hay` (embedding of Python
`str.index`; `none` means the Python `in` test is false). -/
def findSubIdx : List Char → List Char → Option Nat
  | [], sub => if sub.isEmpty then some 0 else none
  | c :: cs, sub =>
    if sub.isPrefixOf (c :: cs) then some 0
    else (findSubIdx cs sub).map (· + 1)

/-- String version of `findSubIdx`. -/
def strFindIdx (s pat : String) : Option Nat :=
  findSubIdx s.toList pat.toList

/-- Embedding of the slice `line[i:]`. -/
def dropChars (s : String) (i : Nat) : String :=
  String.mk (s.toList.drop i)

/-- Helper for `splitlines`: walk the characters, cutting at each newline;
`cur` holds the current line in reverse.  A trailing newline produces no
extra empty line, and the empty string has no lines, as in Python. -/
def splitlinesAux : List Char → List Char → List String
  | [], cur => if cur.isEmpty then [] else [String.mk cur.reverse]
  | c :: cs, cur =>
    if c = '\n' then String.mk cur.reverse :: splitlinesAux cs []
    else splitlinesAux cs (c :: cur)

/-- Embedding of Python `str.splitlines` (restricted to `\n` line
terminators). -/
def splitlines (s : String) : List String :=
  splitlinesAux s.toList []

/-- Embedding of Python `str.strip()`: remove leading and trailing
whitespace. -/
def stripWs (s : String) : String :=
  String.mk (((s.toList.dropWhile Char.isWhitespace).reverse.dropWhile
    Char.isWhitespace).reverse)

/-- The filtering loop over the captured output lines: for each line
containing the warning marker, append the part of the line from the marker
on, plus a newline, to the accumulated `text`. -/
def ghmapLoop : List String → String → String
  | [], text => text
  | line :: rest, text =>
    match strFindIdx line warningMarker with
    | some i => ghmapLoop rest (text ++ (dropChars line i ++ "\n"))
    | none => ghmapLoop rest text

/-- The filtered ghmap output text built from the captured stdout text. -/
def ghmapFilter (captured : String) : String :=
  ghmapLoop (splitlines captured) ""

/-- Embedding of `compute_activity_sequences`.  The body runs under
`contextlib.redirect_stdout(stdout_capture)`: the stdout channel is switched
to the capture buffer on entry and restored to its saved value on every
exit, normal or exceptional.  After a normal exit the captured output is
filtered and, when the filtered text is non-empty, re-emitted as one debug
log message. -/
def compute_activity_sequences (env : Env) (events : List Event)
    (w : World) : Except Err (List Activity) × World :=
  let saved := w.stdout
  let w := { w with stdout := Chan.capture }
  let buf : String := ""
  let w := recordCall w (.loadRes "config/event_to_action.json")
  match env.loadJson "config/event_to_action.json" with
  | .error e => (.error e, { w with stdout := saved })
  | .ok actionMappingJson =>
    let w := recordCall w .actionMapCall
    match env.actionMap actionMappingJson events with
    | (out₁, .error e) =>
      let (w, _) := emit w buf out₁
      (.error e, { w with stdout := saved })
    | (out₁, .ok actions) =>
      let (w, buf) := emit w buf out₁
      let w := logDebug w ("Mapped " ++ toString events.length ++
        " events to " ++ toString actions.length ++ " actions.")
      let w := recordCall w (.loadRes "config/action_to_activity.json")
      match env.loadJson "config/action_to_activity.json" with
      | .error e => (.error e, { w with stdout := saved })
      | .ok activityMappingJson =>
        let w := recordCall w .activityMapCall
        match env.activityMap activityMappingJson actions with
        | (out₂, .error e) =>
          let (w, _) := emit w buf out₂
          (.error e, { w with stdout := saved })
        | (out₂, .ok activities) =>
          let (w, buf) := emit w buf out₂
          let w := logDebug w ("Mapped " ++ toString actions.length ++
            " actions to " ++ toString activities.length ++ " activities.")
          let w := { w with stdout := saved }
          let captured := buf
          let w :=
            if captured = "" then w
            else
              let text := ghmapFilter captured
              if text = "" then w
              else logDebug w ("ghmap output: " ++ stripWs text)
          (.ok activities, w)

/-- Embedding of `predict_user_type`. -/
def predict_user_type (env : Env) (username : String) (events : List Event)
    (predictor : Predictor) (w : World) :
    Except Err ContributorResult × World :=
  match compute_activity_sequences env events w with
  | (.error e, w) => (.error e, w)
  | (.ok activities, w) =>
    if activities.length = 0 then
      let w := logDebug w ("No activity sequences found for user " ++ username)
      (.ok ⟨username, "Unknown", .dash, []⟩, w)
    else
      let w := recordCall w .extractFeatures
      match env.computeFeatures username activities with
      | .error e => (.error e, w)
      | .ok features_df =>
        let w := recordCall w .predictCall
        let (user_type, confidence) := predictor features_df
        let features_dict := if dfEmpty features_df then [] else dfRow0 features_df
        (.ok ⟨username, user_type, confidence, features_dict⟩, w)

/-- Whether an events list contains events of two or more distinct
contributors. -/
def hasMultipleContributors (events : List Event) : Bool :=
  events.any (fun e => events.any (fun f => e.actor ≠ f.actor))

/-- The closed label set of `ContributorResult.user_type`. -/
def closedLabelSet : List String := ["Bot", "Human", "Unknown", "Invalid"]

/-- Count resource-load effects in a call trace. -/
def countLoads (calls : List CallEvt) : Nat :=
  calls.countP (fun c => match c with | .loadRes _ => true | _ => false)

/-- Concatenation of a list of strings. -/
def joinAll : List String → String
  | [] => ""
  | s :: rest => s ++ joinAll rest

/-- What the filtering loop keeps from one captured line: the suffix of the
line from the first occurrence of the warning marker on, plus a newline,
when the marker occurs in the line; nothing otherwise. -/
def lineFilter (line : String) : Option String :=
  (strFindIdx line warningMarker).map (fun i => dropChars line i ++ "\n")

/-! Concrete instances used by counterexamples and witnesses. -/

/-- A single-contributor events list. -/
def ev1 : List Event := [⟨"alice", "PushEvent"⟩]

/-- An events list with two distinct contributors. -/
def ev2 : List Event := [⟨"alice", "PushEvent"⟩, ⟨"bob", "PushEvent"⟩]

/-- The initial world: stdout at the real channel, nothing printed, logged
or called yet. -/
def w0 : World := ⟨Chan.real, "", [], []⟩

/-- Collaborators that all succeed; the action mapper prints three lines of
diagnostic text, one of which contains the warning marker. -/
def env0 : Env :=
  { loadJson := fun _ => .ok "cfg"
  , actionMap := fun _ _ =>
      ("noise\nblah Warning: Unused actions: push\nmore\n", .ok ["a1"])
  , activityMap := fun _ _ => ("", .ok ["act1"])
  , computeFeatures := fun _ _ => .ok [[("f1", 1)]] }

/-- A deterministic predictor that always answers `("Bot", 1)`. -/
def pred0 : Predictor := fun _ => ("Bot", .score 1)

/-- A predictor whose label is outside the documented closed label set. -/
def predCyborg : Predictor := fun _ => ("Cyborg", .score 1)

/-- Like `env0` but the feature extractor returns an empty frame (the case
the orchestrator's defensive fallback guards against). -/
def envEmptyDf : Env := { env0 with computeFeatures := fun _ _ => .ok [] }

/-- Like `env0` but the activity mapper yields no activities. -/
def envEmptyActs : Env := { env0 with activityMap := fun _ _ => ("", .ok []) }

/-- Like `env0` but the activity mapper prints a marker-bearing warning line
and then raises. -/
def envMapFail : Env :=
  { env0 with activityMap := fun _ _ =>
      ("oops Warning: Unused actions: lost\n", .error (.libraryError "ghmap failure")) }

/-! Helper lemmas shared by the claim theorems. -/

theorem strAppend_assoc (a b c : String) : a ++ b ++ c = a ++ (b ++ c) := by
  apply String.ext
  simp [String.data_append, List.append_assoc]

theorem ghmapLoop_eq (ls : List String) (text : String) :
    ghmapLoop ls text = text ++ joinAll (ls.filterMap lineFilter) := by
  induction ls generalizing text with
  | nil => simp [ghmapLoop, joinAll, String.append_empty]
  | cons line rest ih =>
    simp only [ghmapLoop, List.filterMap_cons, lineFilter]
    cases h : strFindIdx line warningMarker with
    | none => simp [h, ih]
    | some i => simp [h, ih, joinAll, strAppend_assoc]

/-- The imperative filtering loop computes exactly the concatenation of the
marker-truncated suffixes of the captured lines that contain the marker. -/
theorem ghmapFilter_eq (captured : String) :
    ghmapFilter captured = joinAll ((splitlines captured).filterMap lineFilter) := by
  simp [ghmapFilter, ghmapLoop_eq, String.empty_append]

theorem ghmapFilter_empty : ghmapFilter "" = "" := rfl

/-- Full characterization of a successful `compute_activity_sequences` run:
the activities are returned, the stdout channel is back at its saved value,
nothing reached the real stdout, the log gained the two count messages plus
the single filtered ghmap message when the filter kept anything, and the
call trace gained the two resource loads interleaved with the two mapper
stages. -/
theorem compute_success_world (env : Env) (events : List Event) (w : World)
    (j1 j2 out1 out2 : String) (actions : List Action)
    (activities : List Activity)
    (h1 : env.loadJson "config/event_to_action.json" = .ok j1)
    (h2 : env.actionMap j1 events = (out1, .ok actions))
    (h3 : env.loadJson "config/action_to_activity.json" = .ok j2)
    (h4 : env.activityMap j2 actions = (out2, .ok activities)) :
    compute_activity_sequences env events w =
      (.ok activities,
       { stdout := w.stdout
       , realOut := w.realOut
       , log := (w.log ++
           ["Mapped " ++ toString events.length ++ " events to " ++
             toString actions.length ++ " actions."] ++
           ["Mapped " ++ toString actions.length ++ " actions to " ++
             toString activities.length ++ " activities."]) ++
           (if ghmapFilter (out1 ++ out2) = "" then []
            else ["ghmap output: " ++ stripWs (ghmapFilter (out1 ++ out2))])
       , calls := w.calls ++ [.loadRes "config/event_to_action.json", .actionMapCall,
           .loadRes "config/action_to_activity.json", .activityMapCall] }) := by
  by_cases hc : out1 ++ out2 = ""
  · simp [compute_activity_sequences, recordCall, logDebug, emit, h1, h2, h3, h4,
      String.empty_append, hc, ghmapFilter_empty, List.append_assoc]
  · by_cases hg : ghmapFilter (out1 ++ out2) = "" <;>
      simp [compute_activity_sequences, recordCall, logDebug, emit, h1, h2, h3, h4,
        String.empty_append, hc, hg, List.append_assoc]

/-- The classification outcome of the normalizer does not depend on the
incoming world state. -/
theorem compute_fst_indep (env : Env) (events : List Event) (w w' : World) :
    (compute_activity_sequences env events w).1
      = (compute_activity_sequences env events w').1 := by
  cases h1 : env.loadJson "config/event_to_action.json" with
  | error e => simp [compute_activity_sequences, recordCall, logDebug, emit, h1]
  | ok j1 =>
    cases h2 : env.actionMap j1 events with
    | mk out1 r1 =>
      cases r1 with
      | error e => simp [compute_activity_sequences, recordCall, logDebug, emit, h1, h2]
      | ok actions =>
        cases h3 : env.loadJson "config/action_to_activity.json" with
        | error e => simp [compute_activity_sequences, recordCall, logDebug, emit, h1, h2, h3]
        | ok j2 =>
          cases h4 : env.activityMap j2 actions with
          | mk out2 r2 =>
            cases r2 with
            | error e =>
              simp [compute_activity_sequences, recordCall, logDebug, emit, h1, h2, h3, h4]
            | ok activities =>
              simp [compute_activity_sequences, recordCall, logDebug, emit, h1, h2, h3, h4]

/-- On every path, the call trace gained by `compute_activity_sequences`
starts with the load of the event-to-action table and contains neither a
feature-extraction nor a prediction call. -/
theorem compute_calls_delta (env : Env) (events : List Event) (w : World) :
    ∃ l, ((compute_activity_sequences env events w).2).calls
        = w.calls ++ CallEvt.loadRes "config/event_to_action.json" :: l
      ∧ CallEvt.extractFeatures ∉ l ∧ CallEvt.predictCall ∉ l := by
  cases h1 : env.loadJson "config/event_to_action.json" with
  | error e =>
    exact ⟨[], by simp [compute_activity_sequences, recordCall, logDebug, emit, h1],
      by decide, by decide⟩
  | ok j1 =>
    cases h2 : env.actionMap j1 events with
    | mk out1 r1 =>
      cases r1 with
      | error e =>
        exact ⟨[.actionMapCall],
          by simp [compute_activity_sequences, recordCall, logDebug, emit, h1, h2],
          by decide, by decide⟩
      | ok actions =>
        cases h3 : env.loadJson "config/action_to_activity.json" with
        | error e =>
          exact ⟨[.actionMapCall, .loadRes "config/action_to_activity.json"],
            by simp [compute_activity_sequences, recordCall, logDebug, emit, h1, h2, h3],
            by decide, by decide⟩
        | ok j2 =>
          cases h4 : env.activityMap j2 actions with
          | mk out2 r2 =>
            cases r2 with
            | error e =>
              exact ⟨[.actionMapCall, .loadRes "config/action_to_activity.json",
                  .activityMapCall],
                by simp [compute_activity_sequences, recordCall, logDebug, emit,
                  h1, h2, h3, h4],
                by decide, by decide⟩
            | ok activities =>
              exact ⟨[.actionMapCall, .loadRes "config/action_to_activity.json",
                  .activityMapCall],
                by rw [compute_success_world env events w j1 j2 out1 out2 actions
                    activities h1 h2 h3 h4],
                by decide, by decide⟩

/-- Full characterization of `predict_user_type` on the non-short-circuited
path with a successfully extracted feature frame: the label and confidence
returned by the predictor are stored unchanged, the features dict is the
frame's first row unless the frame is empty, and the extractor and
predictor calls are appended to the trace. -/
theorem predict_nonempty_path (env : Env) (u : String) (events : List Event)
    (p : Predictor) (w wA : World) (activities : List Activity) (df : DataFrame)
    (hA : compute_activity_sequences env events w = (.ok activities, wA))
    (hne : activities ≠ [])
    (hdf : env.computeFeatures u activities = .ok df) :
    predict_user_type env u events p w
      = (.ok ⟨u, (p df).1, (p df).2, if dfEmpty df then [] else dfRow0 df⟩,
         { wA with calls := wA.calls ++ [.extractFeatures, .predictCall] }) := by
  have hlen : activities.length ≠ 0 := by
    simpa [List.length_eq_zero] using hne
  rcases hpf : p df with ⟨label, conf⟩
  simp [predict_user_type, hA, hlen, hdf, hpf, recordCall, List.append_assoc]

/-- On every path, the call trace gained by `predict_user_type` starts with
the load of the event-to-action table: no validation precedes processing. -/
theorem predict_calls_head (env : Env) (u : String)
    (events : List Event) (p : Predictor) (w : World) :
    ∃ l, ((predict_user_type env u events p w).2).calls
      = w.calls ++ CallEvt.loadRes "config/event_to_action.json" :: l := by
  rcases compute_calls_delta env events w with ⟨l, hl, -, -⟩
  rcases hA : compute_activity_sequences env events w with ⟨rA, wA⟩
  rw [hA] at hl
  simp only at hl
  cases rA with
  | error e => exact ⟨l, by simp [predict_user_type, hA, hl]⟩
  | ok activities =>
    by_cases hlen : activities.length = 0
    · exact ⟨l, by simp [predict_user_type, hA, hlen, logDebug, hl]⟩
    · cases hdf : env.computeFeatures u activities with
      | error e =>
        exact ⟨l ++ [.extractFeatures],
          by simp [predict_user_type, hA, hlen, hdf, recordCall, hl, List.append_assoc]⟩
      | ok df =>
        refine ⟨l ++ [.extractFeatures, .predictCall], ?_⟩
        rcases hpf : p df with ⟨label, conf⟩
        simp [predict_user_type, hA, hlen, hdf, hpf, recordCall, hl, List.append_assoc]

/-- Claim C1 counterexample: an events list with two distinct contributors
for which `predict_user_type` performs event mapping and returns a normal
result — it does not fail with a `ValueError` before any event mapping,
feature extraction or classification. -/
theorem multi_contributor_no_early_failure_cex :
    hasMultipleContributors ev2 = true
    ∧ (predict_user_type env0 "alice" ev2 pred0 w0).1
        = .ok ⟨"alice", "Bot", Confidence.score 1, [("f1", 1)]⟩
    ∧ CallEvt.actionMapCall ∈ ((predict_user_type env0 "alice" ev2 pred0 w0).2).calls :=
  ⟨by decide, rfl, by decide⟩

/-- Claim C1 (amended): `predict_user_type` performs no multi-contributor
validation of its own before processing: on a call whose events list spans
two or more distinct contributors, the first effect recorded after the
incoming trace is the load of the event-to-action mapping table that begins
event mapping; the documented `ValueError` can only arise downstream (in
feature extraction), after event mapping has run. -/
theorem predict_processing_precedes_validation (env : Env) (u : String)
    (events : List Event) (p : Predictor) (w : World)
    (_hm : hasMultipleContributors events = true) :
    ((((predict_user_type env u events p w).2).calls).drop w.calls.length).head?
      = some (CallEvt.loadRes "config/event_to_action.json") := by
  rcases predict_calls_head env u events p w with ⟨l, hl⟩
  rw [hl, List.drop_left]
  rfl

/-- Witness for claim C1: the amended theorem applied at the concrete
two-contributor events list `ev2`. -/
theorem predict_processing_precedes_validation_witness :
    hasMultipleContributors ev2 = true
    ∧ ((((predict_user_type env0 "alice" ev2 pred0 w0).2).calls).drop
          w0.calls.length).head?
        = some (CallEvt.loadRes "config/event_to_action.json") :=
  ⟨by decide,
    predict_processing_precedes_validation env0 "alice" ev2 pred0 w0 (by decide)⟩

/-- Claim C2 counterexample: a classifier emitting the raw label "Cyborg" —
outside `{Bot, Human, Unknown, Invalid}` — has that label passed through
unmapped into the result's `user_type`. -/
theorem user_type_passthrough_cex :
    (predict_user_type env0 "alice" ev1 predCyborg w0).1
        = .ok ⟨"alice", "Cyborg", Confidence.score 1, [("f1", 1)]⟩
    ∧ "Cyborg" ∉ closedLabelSet :=
  ⟨rfl, by decide⟩

/-- Claim C2 (amended): the orchestrator applies no label mapping: on the
non-short-circuited path the result's `user_type` is exactly the raw label
returned by the classifier's `predict` (and `confidence` is passed through
likewise), so `user_type` lies in the closed set `{Bot, Human, Unknown,
Invalid}` only when the classifier's raw label itself does; an unrecognized
label is passed through into the result. -/
theorem user_type_is_raw_predictor_label (env : Env) (u : String)
    (events : List Event) (p : Predictor) (w : World)
    (activities : List Activity) (df : DataFrame)
    (hA : (compute_activity_sequences env events w).1 = .ok activities)
    (hne : activities ≠ [])
    (hdf : env.computeFeatures u activities = .ok df) :
    (predict_user_type env u events p w).1
      = .ok ⟨u, (p df).1, (p df).2, if dfEmpty df then [] else dfRow0 df⟩ := by
  rcases hpair : compute_activity_sequences env events w with ⟨rA, wA⟩
  rw [hpair] at hA
  simp only at hA
  subst hA
  rw [predict_nonempty_path env u events p w wA activities df hpair hne hdf]

/-- Witness for claim C2: the amended theorem applied at concrete
collaborators whose classifier answers "Cyborg". -/
theorem user_type_is_raw_predictor_label_witness :
    (compute_activity_sequences env0 ev1 w0).1 = .ok ["act1"]
    ∧ (["act1"] : List Activity) ≠ []
    ∧ env0.computeFeatures "alice" ["act1"] = .ok [[("f1", 1)]]
    ∧ (predict_user_type env0 "alice" ev1 predCyborg w0).1
        = .ok ⟨"alice", (predCyborg [[("f1", 1)]]).1, (predCyborg [[("f1", 1)]]).2,
            if dfEmpty [[("f1", 1)]] then [] else dfRow0 [[("f1", 1)]]⟩ :=
  ⟨rfl, by decide, rfl,
    user_type_is_raw_predictor_label env0 "alice" ev1 predCyborg w0
      ["act1"] [[("f1", 1)]] rfl (by decide) rfl⟩

/-- Claim C3 counterexample: two successive calls to
`compute_activity_sequences` perform four resource loads in total — the
second call re-loads both mapping tables instead of reusing a once-loaded
configuration. -/
theorem config_tables_reloaded_cex :
    countLoads ((compute_activity_sequences env0 ev1 w0).2).calls = 2
    ∧ countLoads ((compute_activity_sequences env0 ev1
        ((compute_activity_sequences env0 ev1 w0).2)).2).calls = 4 := by
  constructor <;> decide

/-- Claim C3 (amended): both mapping tables are loaded from packaged
resources on every invocation of `compute_activity_sequences`, not once at
first use: each successful call records exactly the two resource loads,
interleaved with the two mapper stages, adding two loads to the trace. -/
theorem compute_loads_tables_every_call (env : Env) (events : List Event)
    (w : World) (j1 j2 out1 out2 : String) (actions : List Action)
    (activities : List Activity)
    (h1 : env.loadJson "config/event_to_action.json" = .ok j1)
    (h2 : env.actionMap j1 events = (out1, .ok actions))
    (h3 : env.loadJson "config/action_to_activity.json" = .ok j2)
    (h4 : env.activityMap j2 actions = (out2, .ok activities)) :
    ((compute_activity_sequences env events w).2).calls
      = w.calls ++ [CallEvt.loadRes "config/event_to_action.json",
          CallEvt.actionMapCall, CallEvt.loadRes "config/action_to_activity.json",
          CallEvt.activityMapCall]
    ∧ countLoads ((compute_activity_sequences env events w).2).calls
        = countLoads w.calls + 2 := by
  rw [compute_success_world env events w j1 j2 out1 out2 actions activities
    h1 h2 h3 h4]
  refine ⟨rfl, ?_⟩
  simp [countLoads, List.countP_append]

/-- Witness for claim C3: the amended theorem applied at the concrete
collaborators `env0`. -/
theorem compute_loads_tables_every_call_witness :
    env0.loadJson "config/event_to_action.json" = .ok "cfg"
    ∧ env0.actionMap "cfg" ev1
        = ("noise\nblah Warning: Unused actions: push\nmore\n", .ok ["a1"])
    ∧ env0.loadJson "config/action_to_activity.json" = .ok "cfg"
    ∧ env0.activityMap "cfg" ["a1"] = ("", .ok ["act1"])
    ∧ (((compute_activity_sequences env0 ev1 w0).2).calls
        = w0.calls ++ [CallEvt.loadRes "config/event_to_action.json",
            CallEvt.actionMapCall, CallEvt.loadRes "config/action_to_activity.json",
            CallEvt.activityMapCall]
      ∧ countLoads ((compute_activity_sequences env0 ev1 w0).2).calls
          = countLoads w0.calls + 2) :=
  ⟨rfl, rfl, rfl, rfl,
    compute_loads_tables_every_call env0 ev1 w0 "cfg" "cfg"
      "noise\nblah Warning: Unused actions: push\nmore\n" "" ["a1"] ["act1"]
      rfl rfl rfl rfl⟩

/-- Claim C4 counterexample: when the feature extractor returns an empty
frame, the defensive fallback stores an empty features mapping although the
`user_type` was produced by the classifier's `predict` call (which appears
in the trace) — refuting the biconditional. -/
theorem features_empty_despite_predict_cex :
    (predict_user_type envEmptyDf "alice" ev1 pred0 w0).1
        = .ok ⟨"alice", "Bot", Confidence.score 1, []⟩
    ∧ CallEvt.predictCall
        ∈ ((predict_user_type envEmptyDf "alice" ev1 pred0 w0).2).calls :=
  ⟨rfl, by decide⟩

/-- Claim C4 (amended): on the non-short-circuited path with a well-formed
feature frame, `features` is non-empty iff the extracted frame is
non-empty, and the classifier's `predict` is invoked on this path; the
original biconditional holds only under the extractor's one-row contract,
and fails when the frame is empty (the defensive fallback). -/
theorem features_nonempty_iff_frame_nonempty (env : Env) (u : String)
    (events : List Event) (p : Predictor) (w : World)
    (activities : List Activity) (df : DataFrame) (r : ContributorResult)
    (hA : (compute_activity_sequences env events w).1 = .ok activities)
    (hne : activities ≠ [])
    (hdf : env.computeFeatures u activities = .ok df)
    (hrow : dfEmpty df = false → dfRow0 df ≠ [])
    (hr : (predict_user_type env u events p w).1 = .ok r) :
    (r.features ≠ [] ↔ dfEmpty df = false)
    ∧ CallEvt.predictCall ∈ ((predict_user_type env u events p w).2).calls := by
  rcases hpair : compute_activity_sequences env events w with ⟨rA, wA⟩
  rw [hpair] at hA
  simp only at hA
  subst hA
  rw [predict_nonempty_path env u events p w wA activities df hpair hne hdf] at hr ⊢
  simp only [Except.ok.injEq] at hr
  subst hr
  constructor
  · cases hdfe : dfEmpty df with
    | true => simp [hdfe]
    | false => simp [hdfe, hrow hdfe]
  · simp

/-- Witness for claim C4: the amended theorem applied at the concrete
collaborators `env0`, whose extractor returns the one-row frame
`[[("f1", 1)]]`. -/
theorem features_nonempty_iff_frame_nonempty_witness :
    (compute_activity_sequences env0 ev1 w0).1 = .ok ["act1"]
    ∧ (["act1"] : List Activity) ≠ []
    ∧ env0.computeFeatures "alice" ["act1"] = .ok [[("f1", 1)]]
    ∧ (dfEmpty [[("f1", 1)]] = false → dfRow0 [[("f1", 1)]] ≠ [])
    ∧ (predict_user_type env0 "alice" ev1 pred0 w0).1
        = .ok ⟨"alice", "Bot", Confidence.score 1, [("f1", 1)]⟩
    ∧ (((⟨"alice", "Bot", Confidence.score 1, [("f1", 1)]⟩ : ContributorResult).features
          ≠ [] ↔ dfEmpty [[("f1", 1)]] = false)
      ∧ CallEvt.predictCall
          ∈ ((predict_user_type env0 "alice" ev1 pred0 w0).2).calls) :=
  ⟨rfl, by decide, rfl, by decide, rfl,
    features_nonempty_iff_frame_nonempty env0 "alice" ev1 pred0 w0
      ["act1"] [[("f1", 1)]] ⟨"alice", "Bot", Confidence.score 1, [("f1", 1)]⟩
      rfl (by decide) rfl (by decide) rfl⟩

/-- Claim C5: if the normalizer derives an empty activity sequence from the
events list, `predict_user_type` returns exactly
`ContributorResult(username, "Unknown", "-", {})` — contributor equal to
the input username, `user_type` "Unknown", the "-" unavailable marker as
confidence, and an empty features mapping — regardless of how many events
were supplied. -/
theorem predict_user_type_empty_activities (env : Env) (u : String)
    (events : List Event) (p : Predictor) (w : World)
    (hcw : (compute_activity_sequences env events w).1 = .ok []) :
    (predict_user_type env u events p w).1
      = .ok ⟨u, "Unknown", Confidence.dash, []⟩ := by
  rcases hA : compute_activity_sequences env events w with ⟨rA, wA⟩
  rw [hA] at hcw
  simp only at hcw
  subst hcw
  simp [predict_user_type, hA, logDebug]

/-- Witness for claim C5: the theorem applied at collaborators whose
activity mapper yields no activities. -/
theorem predict_user_type_empty_activities_witness :
    (compute_activity_sequences envEmptyActs ev1 w0).1 = .ok ([] : List Activity)
    ∧ (predict_user_type envEmptyActs "alice" ev1 pred0 w0).1
        = .ok ⟨"alice", "Unknown", Confidence.dash, []⟩ :=
  ⟨rfl, predict_user_type_empty_activities envEmptyActs "alice" ev1 pred0 w0 rfl⟩

/-- Claim C6: on a successful run of `compute_activity_sequences`, all text
the mapper wrote to stdout is captured and suppressed (nothing reaches the
real stdout), the log gains the two mapping-count messages plus — exactly
when the filter retains anything — one collapsed debug message made of the
captured lines containing "Warning: Unused actions", each truncated to
start at that marker; and the retained text is exactly the concatenation of
those truncated lines, every other captured line being discarded. -/
theorem compute_stdout_filtering (env : Env) (events : List Event) (w : World)
    (j1 j2 out1 out2 : String) (actions : List Action)
    (activities : List Activity)
    (h1 : env.loadJson "config/event_to_action.json" = .ok j1)
    (h2 : env.actionMap j1 events = (out1, .ok actions))
    (h3 : env.loadJson "config/action_to_activity.json" = .ok j2)
    (h4 : env.activityMap j2 actions = (out2, .ok activities)) :
    ((compute_activity_sequences env events w).2).realOut = w.realOut
    ∧ ((compute_activity_sequences env events w).2).log
        = (w.log ++
            ["Mapped " ++ toString events.length ++ " events to " ++
              toString actions.length ++ " actions."] ++
            ["Mapped " ++ toString actions.length ++ " actions to " ++
              toString activities.length ++ " activities."]) ++
          (if ghmapFilter (out1 ++ out2) = "" then []
           else ["ghmap output: " ++ stripWs (ghmapFilter (out1 ++ out2))])
    ∧ ghmapFilter (out1 ++ out2)
        = joinAll ((splitlines (out1 ++ out2)).filterMap lineFilter) := by
  rw [compute_success_world env events w j1 j2 out1 out2 actions activities
    h1 h2 h3 h4]
  exact ⟨rfl, rfl, ghmapFilter_eq _⟩

/-- Witness for claim C6: the theorem applied at `env0`, whose action
mapper prints three lines of which exactly one contains the marker. -/
theorem compute_stdout_filtering_witness :
    env0.loadJson "config/event_to_action.json" = .ok "cfg"
    ∧ env0.actionMap "cfg" ev1
        = ("noise\nblah Warning: Unused actions: push\nmore\n", .ok ["a1"])
    ∧ env0.loadJson "config/action_to_activity.json" = .ok "cfg"
    ∧ env0.activityMap "cfg" ["a1"] = ("", .ok ["act1"])
    ∧ (((compute_activity_sequences env0 ev1 w0).2).realOut = w0.realOut
      ∧ ((compute_activity_sequences env0 ev1 w0).2).log
          = (w0.log ++
              ["Mapped " ++ toString ev1.length ++ " events to " ++
                toString (["a1"] : List Action).length ++ " actions."] ++
              ["Mapped " ++ toString (["a1"] : List Action).length ++ " actions to " ++
                toString (["act1"] : List Activity).length ++ " activities."]) ++
            (if ghmapFilter ("noise\nblah Warning: Unused actions: push\nmore\n" ++ "") = "" then []
             else ["ghmap output: " ++ stripWs (ghmapFilter
               ("noise\nblah Warning: Unused actions: push\nmore\n" ++ ""))])
      ∧ ghmapFilter ("noise\nblah Warning: Unused actions: push\nmore\n" ++ "")
          = joinAll ((splitlines ("noise\nblah Warning: Unused actions: push\nmore\n" ++ "")).filterMap lineFilter)) :=
  ⟨rfl, rfl, rfl, rfl,
    compute_stdout_filtering env0 ev1 w0 "cfg" "cfg"
      "noise\nblah Warning: Unused actions: push\nmore\n" "" ["a1"] ["act1"]
      rfl rfl rfl rfl⟩

/-- Claim C7: `compute_activity_sequences` restores the stdout channel to
its incoming value on every path — whether it returns activities normally
or propagates a configuration or mapper exception, the redirection never
remains in effect. -/
theorem compute_stdout_restored (env : Env) (events : List Event) (w : World) :
    ((compute_activity_sequences env events w).2).stdout = w.stdout := by
  simp only [compute_activity_sequences, recordCall, logDebug, emit]
  repeat' split
  all_goals simp_all

/-- Claim C8: when the normalizer yields an empty activity sequence,
`predict_user_type` invokes neither the feature extractor nor the
classifier's `predict`: no such call appears in the trace. -/
theorem predict_no_extract_or_predict_on_empty (env : Env) (u : String)
    (events : List Event) (p : Predictor) (w : World)
    (hcw : (compute_activity_sequences env events w).1 = .ok [])
    (hx : CallEvt.extractFeatures ∉ w.calls)
    (hp : CallEvt.predictCall ∉ w.calls) :
    CallEvt.extractFeatures ∉ ((predict_user_type env u events p w).2).calls
    ∧ CallEvt.predictCall ∉ ((predict_user_type env u events p w).2).calls := by
  rcases compute_calls_delta env events w with ⟨l, hl, hxl, hpl⟩
  rcases hA : compute_activity_sequences env events w with ⟨rA, wA⟩
  rw [hA] at hcw hl
  simp only at hcw hl
  subst hcw
  have hfinal : ((predict_user_type env u events p w).2).calls = wA.calls := by
    simp [predict_user_type, hA, logDebug]
  rw [hfinal, hl]
  refine ⟨?_, ?_⟩ <;> intro hmem
  · rcases List.mem_append.mp hmem with h | h
    · exact hx h
    · rcases List.mem_cons.mp h with h | h
      · exact absurd h (by decide)
      · exact hxl h
  · rcases List.mem_append.mp hmem with h | h
    · exact hp h
    · rcases List.mem_cons.mp h with h | h
      · exact absurd h (by decide)
      · exact hpl h

/-- Witness for claim C8: the theorem applied at collaborators whose
activity mapper yields no activities, starting from the fresh world. -/
theorem predict_no_extract_or_predict_on_empty_witness :
    (compute_activity_sequences envEmptyActs ev1 w0).1 = .ok ([] : List Activity)
    ∧ CallEvt.extractFeatures ∉ w0.calls
    ∧ CallEvt.predictCall ∉ w0.calls
    ∧ (CallEvt.extractFeatures
        ∉ ((predict_user_type envEmptyActs "alice" ev1 pred0 w0).2).calls
      ∧ CallEvt.predictCall
        ∉ ((predict_user_type envEmptyActs "alice" ev1 pred0 w0).2).calls) :=
  ⟨rfl, by decide, by decide,
    predict_no_extract_or_predict_on_empty envEmptyActs "alice" ev1 pred0 w0 rfl
      (by decide) (by decide)⟩

/-- Claim C9: the classification outcome of `predict_user_type` does not
depend on the incoming world state, so two calls with the same username,
events list, collaborators and deterministic predictor — in particular a
repeated call in the state left by the first — return identical
`ContributorResult` values. -/
theorem predict_user_type_deterministic (env : Env) (u : String)
    (events : List Event) (p : Predictor) (w w' : World) :
    (predict_user_type env u events p w).1
      = (predict_user_type env u events p w').1 := by
  have hfst := compute_fst_indep env events w w'
  rcases hA : compute_activity_sequences env events w with ⟨rA, wA⟩
  rcases hB : compute_activity_sequences env events w' with ⟨rB, wB⟩
  rw [hA, hB] at hfst
  simp only at hfst
  subst hfst
  cases rA with
  | error e => simp [predict_user_type, hA, hB]
  | ok activities =>
    by_cases hlen : activities.length = 0
    · simp [predict_user_type, hA, hB, hlen, logDebug]
    · cases hdf : env.computeFeatures u activities with
      | error e => simp [predict_user_type, hA, hB, hlen, hdf, recordCall]
      | ok df => simp [predict_user_type, hA, hB, hlen, hdf, recordCall]

/-- Claim C10: when the activity-mapping stage raises after diagnostic text
(possibly containing marker-bearing warning lines) was already captured,
the captured text is neither filtered nor logged: the exception propagates,
nothing reaches the real stdout, and the final log holds only the first
mapping-count debug message — never a "ghmap output" message — so the
diagnostics are silently lost. -/
theorem compute_error_path_discards_diagnostics (env : Env)
    (events : List Event) (w : World) (j1 j2 out1 out2 : String)
    (actions : List Action) (e : Err)
    (h1 : env.loadJson "config/event_to_action.json" = .ok j1)
    (h2 : env.actionMap j1 events = (out1, .ok actions))
    (h3 : env.loadJson "config/action_to_activity.json" = .ok j2)
    (h4 : env.activityMap j2 actions = (out2, .error e)) :
    compute_activity_sequences env events w
      = (.error e,
         { stdout := w.stdout
         , realOut := w.realOut
         , log := w.log ++ ["Mapped " ++ toString events.length ++ " events to "
             ++ toString actions.length ++ " actions."]
         , calls := w.calls ++ [CallEvt.loadRes "config/event_to_action.json",
             CallEvt.actionMapCall, CallEvt.loadRes "config/action_to_activity.json",
             CallEvt.activityMapCall] }) := by
  simp [compute_activity_sequences, recordCall, logDebug, emit, h1, h2, h3, h4,
    List.append_assoc]

/-- Witness for claim C10: the theorem applied at collaborators whose
activity mapper prints a marker-bearing warning line and then raises. -/
theorem compute_error_path_discards_diagnostics_witness :
    envMapFail.loadJson "config/event_to_action.json" = .ok "cfg"
    ∧ envMapFail.actionMap "cfg" ev1
        = ("noise\nblah Warning: Unused actions: push\nmore\n", .ok ["a1"])
    ∧ envMapFail.loadJson "config/action_to_activity.json" = .ok "cfg"
    ∧ envMapFail.activityMap "cfg" ["a1"]
        = ("oops Warning: Unused actions: lost\n",
           .error (Err.libraryError "ghmap failure"))
    ∧ compute_activity_sequences envMapFail ev1 w0
        = (.error (Err.libraryError "ghmap failure"),
           { stdout := w0.stdout
           , realOut := w0.realOut
           , log := w0.log ++ ["Mapped " ++ toString ev1.length ++ " events to "
               ++ toString (["a1"] : List Action).length ++ " actions."]
           , calls := w0.calls ++ [CallEvt.loadRes "config/event_to_action.json",
               CallEvt.actionMapCall, CallEvt.loadRes "config/action_to_activity.json",
               CallEvt.activityMapCall] }) :=
  ⟨rfl, rfl, rfl, rfl,
    compute_error_path_discards_diagnostics envMapFail ev1 w0 "cfg" "cfg"
      "noise\nblah Warning: Unused actions: push\nmore\n"
      "oops Warning: Unused actions: lost\n" ["a1"]
      (Err.libraryError "ghmap failure") rfl rfl rfl rfl⟩

end Rabbit
